import Mathlib

/-!
# Verification of the CSV-to-store seed migration (`prisma/seed.ts`)

Shallow embedding of the seed script's core logic:

* **Field coercion** — `parseBoolean`, `parseIntValue`, `parseFloatValue`,
  modelled on JavaScript `parseInt(·, 10)` / `parseFloat` prefix semantics
  (whitespace skip, optional sign, longest numeric prefix, `NaN` on no prefix).
  JS doubles are modelled exactly (`JsFloat`, decimal scientific form);
  the claims under study concern parsing structure, not double rounding.
* **Date construction** — `new Date(s)` is modelled by a parameter
  `pd : String → Option Int` (the external date parser capability): `none`
  stands for JavaScript's *Invalid Date*; `new Date()` (no argument) is
  modelled by an explicit `now : Int` clock parameter of the run.
* **Row source** — `parseCSV` over a filesystem capability
  `fs : String → Option String` and a row-parsing capability.
* **Entity reconcilers** — one loop per entity type (products, carts,
  cart items, favorites, orders, reviews), each building the upsert
  argument record and performing a key-based upsert on an abstract store
  `Store := String → String → Option Fields`; store-level upsert failures
  are modelled by a failure predicate `err : String → String → Bool`
  (entity type, key); a failing upsert leaves the store unchanged and logs
  an error, as the `try/catch` in the source does.
* **Orchestrator** — `runMigration` runs the six reconcilers in the fixed
  source order, threading the store and logs, and records a per-entity
  reported count and a trace of the reconciliation order.

TypeScript `undefined`/empty optional fields (the `FavoriteRow` interface)
are modelled as the empty string: the source only tests them for truthiness
(`!favorite.id`, `favorite.createdAt ? … : …`), and for strings falsy means
absent-or-empty.
-/

/-- A JavaScript number as produced by `parseFloat`: `NaN`, signed
infinity, or a finite value. A finite value is kept in exact decimal
scientific form `m · 10 ^ e` (the form the decimal literal denotes), so
that all arithmetic stays in `Int`; `JsFloat.ratVal` interprets it as a
rational. -/
inductive JsFloat where
  | nan : JsFloat
  | posInf : JsFloat
  | negInf : JsFloat
  | finite (m : Int) (e : Int) : JsFloat
deriving DecidableEq, Repr

/-- `(10 : ℚ)` raised to an integer exponent. -/
def pow10 (e : Int) : ℚ :=
  if 0 ≤ e then (10 : ℚ) ^ e.toNat else 1 / (10 : ℚ) ^ (-e).toNat

/-- The rational value of a finite `JsFloat` (`none` on `NaN`/infinities). -/
def JsFloat.ratVal : JsFloat → Option ℚ
  | .finite m e => some ((m : ℚ) * pow10 e)
  | _ => none

/-- A JavaScript `Date`: either *Invalid Date* or an absolute instant. -/
inductive JsDate where
  | invalid : JsDate
  | at (t : Int) : JsDate
deriving DecidableEq, Repr

/-- A typed field value of an upsert argument record. -/
inductive Value where
  | str (s : String) : Value
  | int (n : Int) : Value
  | float (f : JsFloat) : Value
  | bool (b : Bool) : Value
  | date (d : JsDate) : Value
deriving DecidableEq, Repr

/-- `parseBoolean` from `seed.ts`: true exactly on the four literal tokens. -/
def parseBoolean (value : String) : Bool :=
  value == "true" || value == "1" || value == "t" || value == "True"

/-- JavaScript whitespace characters skipped by `parseInt`/`parseFloat`
(the ASCII subset; inputs here are CSV fields). -/
def isJsWhitespace (c : Char) : Bool :=
  c == ' ' || c == '\t' || c == '\n' || c == '\r' || c == '\x0b' || c == '\x0c'

/-- Numeric value of a list of decimal digit characters. -/
def digitsVal (ds : List Char) : Nat :=
  ds.foldl (fun acc c => 10 * acc + (c.toNat - '0'.toNat)) 0

/-- JS `parseInt(s, 10)`: skip whitespace, optional sign, then the longest
prefix of decimal digits; `none` models `NaN` (no digit in the prefix). -/
def jsParseInt (s : String) : Option Int :=
  let cs := s.toList.dropWhile isJsWhitespace
  let (neg, cs) : Bool × List Char :=
    match cs with
    | '-' :: rest => (true, rest)
    | '+' :: rest => (false, rest)
    | rest => (false, rest)
  let digits := cs.takeWhile Char.isDigit
  if digits.isEmpty then none
  else some (if neg then -(digitsVal digits : Int) else (digitsVal digits : Int))

/-- `parseIntValue` from `seed.ts`: on `NaN`, warn and default to 0.
The second component is the list of warnings the call emits. -/
def parseIntValue (value : String) : Int × List String :=
  match jsParseInt value with
  | none => (0, ["Failed to parse integer: " ++ value ++ ", defaulting to 0"])
  | some n => (n, [])

/-- Longest-prefix decimal literal after the sign: digits, optional
fraction, optional exponent (`e`/`E`, optional sign, digits; an exponent
marker without digits is not consumed, as in JS). `none` models `NaN`;
`some (m, e)` denotes the value `m · 10 ^ e`, the mantissa digits read as
an integer and the exponent shifted by the fraction length. -/
def jsParseFloatBody (cs : List Char) : Option (Nat × Int) :=
  let intDigits := cs.takeWhile Char.isDigit
  let rest := cs.dropWhile Char.isDigit
  let (fracDigits, rest2) : List Char × List Char :=
    match rest with
    | '.' :: r => (r.takeWhile Char.isDigit, r.dropWhile Char.isDigit)
    | r => ([], r)
  if intDigits.isEmpty && fracDigits.isEmpty then none
  else
    let exp : Int :=
      match rest2 with
      | 'e' :: r | 'E' :: r =>
        let (eneg, r2) : Bool × List Char :=
          match r with
          | '-' :: rr => (true, rr)
          | '+' :: rr => (false, rr)
          | rr => (false, rr)
        let eds := r2.takeWhile Char.isDigit
        if eds.isEmpty then 0
        else if eneg then -(digitsVal eds : Int) else (digitsVal eds : Int)
      | _ => 0
    some (digitsVal (intDigits ++ fracDigits), exp - fracDigits.length)

/-- JS `parseFloat(s)`: skip whitespace, optional sign, then `Infinity`
or the longest decimal-literal prefix; `nan` when no prefix parses. -/
def jsParseFloat (s : String) : JsFloat :=
  let cs := s.toList.dropWhile isJsWhitespace
  let (neg, cs) : Bool × List Char :=
    match cs with
    | '-' :: rest => (true, rest)
    | '+' :: rest => (false, rest)
    | rest => (false, rest)
  if "Infinity".toList.isPrefixOf cs then
    if neg then .negInf else .posInf
  else
    match jsParseFloatBody cs with
    | none => .nan
    | some (m, e) => .finite (if neg then -(m : Int) else (m : Int)) e

/-- `parseFloatValue` from `seed.ts`: on `NaN`, warn and default to 0.
The second component is the list of warnings the call emits. -/
def parseFloatValue (value : String) : JsFloat × List String :=
  match jsParseFloat value with
  | .nan => (.finite 0 0, ["Failed to parse float: " ++ value ++ ", defaulting to 0"])
  | v => (v, [])

/-- `new Date(s)` via the external date-parsing capability `pd`:
an unparseable string gives *Invalid Date*. -/
def jsNewDate (pd : String → Option Int) (s : String) : JsDate :=
  match pd s with
  | none => .invalid
  | some t => .at t

/-! ## Row types (the per-entity CSV row interfaces of `seed.ts`) -/

/-- `ProductRow` from `seed.ts` (all CSV fields are strings). -/
structure ProductRow where
  id : String
  name : String
  company : String
  description : String
  featured : String
  image : String
  price : String
  createdAt : String
  updatedAt : String
  clerkId : String
deriving DecidableEq, Repr

/-- `CartRow` from `seed.ts`. -/
structure CartRow where
  id : String
  clerkId : String
  numItemsInCart : String
  cartTotal : String
  shipping : String
  tax : String
  taxRate : String
  orderTotal : String
  createdAt : String
  updatedAt : String
deriving DecidableEq, Repr

/-- `CartItemRow` from `seed.ts`. -/
structure CartItemRow where
  id : String
  productId : String
  cartId : String
  amount : String
  createdAt : String
  updatedAt : String
deriving DecidableEq, Repr

/-- `FavoriteRow` from `seed.ts`; its fields are optional in the source
(`id?: string` …), and a missing field is modelled as the empty string,
matching the source's truthiness tests. -/
structure FavoriteRow where
  id : String
  clerkId : String
  productId : String
  createdAt : String
  updatedAt : String
deriving DecidableEq, Repr

/-- `OrderRow` from `seed.ts`. -/
structure OrderRow where
  id : String
  clerkId : String
  products : String
  orderTotal : String
  tax : String
  shipping : String
  email : String
  isPaid : String
  createdAt : String
  updatedAt : String
deriving DecidableEq, Repr

/-- `ReviewRow` from `seed.ts`. -/
structure ReviewRow where
  id : String
  clerkId : String
  rating : String
  comment : String
  authorName : String
  authorImageUrl : String
  createdAt : String
  updatedAt : String
  productId : String
deriving DecidableEq, Repr

/-! ## Upsert argument records

Each builder produces the field map that `seed.ts` passes to
`prisma.<entity>.upsert` (identical in the `update` and `create` branches
apart from `create` additionally fixing `id`, which is the upsert key and
is therefore kept outside the field map) together with the coercion
warnings emitted while the call's arguments are evaluated. The source
evaluates both the `update` and the `create` object literals before the
call, so each numeric coercion runs twice and its warning appears twice. -/

/-- Upsert argument record for one product row, with coercion warnings. -/
def productFields (pd : String → Option Int) (r : ProductRow) :
    List (String × Value) × List String :=
  ([("name", .str r.name), ("company", .str r.company),
    ("description", .str r.description),
    ("featured", .bool (parseBoolean r.featured)),
    ("image", .str r.image),
    ("price", .int (parseIntValue r.price).1),
    ("clerkId", .str r.clerkId),
    ("createdAt", .date (jsNewDate pd r.createdAt)),
    ("updatedAt", .date (jsNewDate pd r.updatedAt))],
   (parseIntValue r.price).2 ++ (parseIntValue r.price).2)

/-- Upsert argument record for one cart row, with coercion warnings. -/
def cartFields (pd : String → Option Int) (r : CartRow) :
    List (String × Value) × List String :=
  ([("clerkId", .str r.clerkId),
    ("numItemsInCart", .int (parseIntValue r.numItemsInCart).1),
    ("cartTotal", .int (parseIntValue r.cartTotal).1),
    ("shipping", .int (parseIntValue r.shipping).1),
    ("tax", .int (parseIntValue r.tax).1),
    ("taxRate", .float (parseFloatValue r.taxRate).1),
    ("orderTotal", .int (parseIntValue r.orderTotal).1),
    ("createdAt", .date (jsNewDate pd r.createdAt)),
    ("updatedAt", .date (jsNewDate pd r.updatedAt))],
   let w := (parseIntValue r.numItemsInCart).2 ++ (parseIntValue r.cartTotal).2 ++
     (parseIntValue r.shipping).2 ++ (parseIntValue r.tax).2 ++
     (parseFloatValue r.taxRate).2 ++ (parseIntValue r.orderTotal).2
   w ++ w)

/-- Upsert argument record for one cart-item row, with coercion warnings. -/
def cartItemFields (pd : String → Option Int) (r : CartItemRow) :
    List (String × Value) × List String :=
  ([("productId", .str r.productId), ("cartId", .str r.cartId),
    ("amount", .int (parseIntValue r.amount).1),
    ("createdAt", .date (jsNewDate pd r.createdAt)),
    ("updatedAt", .date (jsNewDate pd r.updatedAt))],
   (parseIntValue r.amount).2 ++ (parseIntValue r.amount).2)

/-- Upsert argument record for one favorite row: a missing (empty)
`createdAt`/`updatedAt` is replaced by the run's current time `now`
(`new Date()`), a non-empty one is parsed (`new Date(s)`); no warnings
are emitted. -/
def favoriteFields (pd : String → Option Int) (now : Int) (r : FavoriteRow) :
    List (String × Value) :=
  [("clerkId", .str r.clerkId), ("productId", .str r.productId),
   ("createdAt", .date (if r.createdAt ≠ "" then jsNewDate pd r.createdAt else .at now)),
   ("updatedAt", .date (if r.updatedAt ≠ "" then jsNewDate pd r.updatedAt else .at now))]

/-- Upsert argument record for one order row, with coercion warnings. -/
def orderFields (pd : String → Option Int) (r : OrderRow) :
    List (String × Value) × List String :=
  ([("clerkId", .str r.clerkId),
    ("products", .int (parseIntValue r.products).1),
    ("orderTotal", .int (parseIntValue r.orderTotal).1),
    ("tax", .int (parseIntValue r.tax).1),
    ("shipping", .int (parseIntValue r.shipping).1),
    ("email", .str r.email),
    ("isPaid", .bool (parseBoolean r.isPaid)),
    ("createdAt", .date (jsNewDate pd r.createdAt)),
    ("updatedAt", .date (jsNewDate pd r.updatedAt))],
   let w := (parseIntValue r.products).2 ++ (parseIntValue r.orderTotal).2 ++
     (parseIntValue r.tax).2 ++ (parseIntValue r.shipping).2
   w ++ w)

/-- Upsert argument record for one review row, with coercion warnings. -/
def reviewFields (pd : String → Option Int) (r : ReviewRow) :
    List (String × Value) × List String :=
  ([("clerkId", .str r.clerkId),
    ("rating", .int (parseIntValue r.rating).1),
    ("comment", .str r.comment),
    ("authorName", .str r.authorName),
    ("authorImageUrl", .str r.authorImageUrl),
    ("productId", .str r.productId),
    ("createdAt", .date (jsNewDate pd r.createdAt)),
    ("updatedAt", .date (jsNewDate pd r.updatedAt))],
   (parseIntValue r.rating).2 ++ (parseIntValue r.rating).2)

/-! ## The store capability and the seed state -/

/-- The persistent store: entity type → key → stored field map. -/
def Store : Type := String → String → Option (List (String × Value))

/-- The empty store. -/
def emptyStore : Store := fun _ _ => none

/-- Create-or-update-by-key: after `upsert st e k f`, entity `e` at key
`k` holds exactly the fields `f`; everything else is untouched. -/
def upsert (st : Store) (e k : String) (f : List (String × Value)) : Store :=
  fun e' k' => if e' = e ∧ k' = k then some f else st e' k'

/-- State threaded through the run: the store plus the warning and error
logs (`console.warn` / `console.error`) and the trace of entity types
whose reconciliation has run, in order. -/
structure SeedState where
  store : Store
  warnings : List String
  errors : List String
  trace : List String

/-! ## Per-entity reconciliation loops

Each `seedXStep` is one iteration of the source's `for … of` loop: build
the upsert arguments (emitting coercion warnings), then attempt the
upsert; a store-level failure (`err` true for this entity/key) leaves the
store unchanged and logs an error naming the row's key, exactly as the
per-row `try/catch` does. `seedXS` is the whole seed function: on an
empty row list it returns without reporting a count (the source's early
`return` after "No … to seed"); otherwise it folds the step over the rows
and reports `rows.length` as the seeded count, and in every case it
appends the entity-type name to the trace as its reconciliation runs. -/

/-- One iteration of the product loop. -/
def seedProductStep (pd : String → Option Int) (err : String → String → Bool)
    (s : SeedState) (r : ProductRow) : SeedState :=
  let fw := productFields pd r
  if err "product" r.id then
    { s with warnings := s.warnings ++ fw.2,
             errors := s.errors ++ ["Error seeding product " ++ r.id] }
  else
    { s with store := upsert s.store "product" r.id fw.1,
             warnings := s.warnings ++ fw.2 }

/-- `seedProducts` from `seed.ts`; also returns the reported count. -/
def seedProductsS (pd : String → Option Int) (err : String → String → Bool)
    (rows : List ProductRow) (s : SeedState) : SeedState × Option Nat :=
  let s := { s with trace := s.trace ++ ["product"] }
  if rows.length = 0 then (s, none)
  else (rows.foldl (seedProductStep pd err) s, some rows.length)

/-- One iteration of the cart loop. -/
def seedCartStep (pd : String → Option Int) (err : String → String → Bool)
    (s : SeedState) (r : CartRow) : SeedState :=
  let fw := cartFields pd r
  if err "cart" r.id then
    { s with warnings := s.warnings ++ fw.2,
             errors := s.errors ++ ["Error seeding cart " ++ r.id] }
  else
    { s with store := upsert s.store "cart" r.id fw.1,
             warnings := s.warnings ++ fw.2 }

/-- `seedCarts` from `seed.ts`; also returns the reported count. -/
def seedCartsS (pd : String → Option Int) (err : String → String → Bool)
    (rows : List CartRow) (s : SeedState) : SeedState × Option Nat :=
  let s := { s with trace := s.trace ++ ["cart"] }
  if rows.length = 0 then (s, none)
  else (rows.foldl (seedCartStep pd err) s, some rows.length)

/-- One iteration of the cart-item loop. -/
def seedCartItemStep (pd : String → Option Int) (err : String → String → Bool)
    (s : SeedState) (r : CartItemRow) : SeedState :=
  let fw := cartItemFields pd r
  if err "cartItem" r.id then
    { s with warnings := s.warnings ++ fw.2,
             errors := s.errors ++ ["Error seeding cart item " ++ r.id] }
  else
    { s with store := upsert s.store "cartItem" r.id fw.1,
             warnings := s.warnings ++ fw.2 }

/-- `seedCartItems` from `seed.ts`; also returns the reported count. -/
def seedCartItemsS (pd : String → Option Int) (err : String → String → Bool)
    (rows : List CartItemRow) (s : SeedState) : SeedState × Option Nat :=
  let s := { s with trace := s.trace ++ ["cartItem"] }
  if rows.length = 0 then (s, none)
  else (rows.foldl (seedCartItemStep pd err) s, some rows.length)

/-- One iteration of the favorite loop: a row with a missing (empty)
`id`, `clerkId` or `productId` is skipped silently — no upsert, no log —
before anything else happens (`continue`). -/
def seedFavoriteStep (pd : String → Option Int) (err : String → String → Bool)
    (now : Int) (s : SeedState) (r : FavoriteRow) : SeedState :=
  if r.id = "" ∨ r.clerkId = "" ∨ r.productId = "" then s
  else if err "favorite" r.id then
    { s with errors := s.errors ++ ["Error seeding favorite " ++ r.id] }
  else
    { s with store := upsert s.store "favorite" r.id (favoriteFields pd now r) }

/-- `seedFavorites` from `seed.ts`; also returns the reported count. -/
def seedFavoritesS (pd : String → Option Int) (err : String → String → Bool)
    (now : Int) (rows : List FavoriteRow) (s : SeedState) : SeedState × Option Nat :=
  let s := { s with trace := s.trace ++ ["favorite"] }
  if rows.length = 0 then (s, none)
  else (rows.foldl (seedFavoriteStep pd err now) s, some rows.length)

/-- One iteration of the order loop. -/
def seedOrderStep (pd : String → Option Int) (err : String → String → Bool)
    (s : SeedState) (r : OrderRow) : SeedState :=
  let fw := orderFields pd r
  if err "order" r.id then
    { s with warnings := s.warnings ++ fw.2,
             errors := s.errors ++ ["Error seeding order " ++ r.id] }
  else
    { s with store := upsert s.store "order" r.id fw.1,
             warnings := s.warnings ++ fw.2 }

/-- `seedOrders` from `seed.ts`; also returns the reported count. -/
def seedOrdersS (pd : String → Option Int) (err : String → String → Bool)
    (rows : List OrderRow) (s : SeedState) : SeedState × Option Nat :=
  let s := { s with trace := s.trace ++ ["order"] }
  if rows.length = 0 then (s, none)
  else (rows.foldl (seedOrderStep pd err) s, some rows.length)

/-- One iteration of the review loop. -/
def seedReviewStep (pd : String → Option Int) (err : String → String → Bool)
    (s : SeedState) (r : ReviewRow) : SeedState :=
  let fw := reviewFields pd r
  if err "review" r.id then
    { s with warnings := s.warnings ++ fw.2,
             errors := s.errors ++ ["Error seeding review " ++ r.id] }
  else
    { s with store := upsert s.store "review" r.id fw.1,
             warnings := s.warnings ++ fw.2 }

/-- `seedReviews` from `seed.ts`; also returns the reported count. -/
def seedReviewsS (pd : String → Option Int) (err : String → String → Bool)
    (rows : List ReviewRow) (s : SeedState) : SeedState × Option Nat :=
  let s := { s with trace := s.trace ++ ["review"] }
  if rows.length = 0 then (s, none)
  else (rows.foldl (seedReviewStep pd err) s, some rows.length)

/-! ## The orchestrator (`main`) -/

/-- The parsed input file set: one row list per entity-type CSV file. -/
structure Input where
  products : List ProductRow
  carts : List CartRow
  cartItems : List CartItemRow
  favorites : List FavoriteRow
  orders : List OrderRow
  reviews : List ReviewRow
deriving Repr

/-- The per-entity reported counts ("Seeded N …"); `none` when the entity
had no rows and reported nothing. -/
structure RunCounts where
  products : Option Nat
  carts : Option Nat
  cartItems : Option Nat
  favorites : Option Nat
  orders : Option Nat
  reviews : Option Nat
deriving DecidableEq, Repr

/-- Result of one full run of `main`. -/
structure RunResult where
  state : SeedState
  counts : RunCounts

/-- `main` from `seed.ts`: run the six reconciliations in the fixed
source order — products, carts, cart items, favorites, orders, reviews —
threading the store and logs. `pd` is the date-parsing capability, `err`
tells which upserts the store rejects, `now` is the run's clock reading
(used by `new Date()` for missing favorite timestamps), `st` the starting
store. -/
def runMigration (pd : String → Option Int) (err : String → String → Bool)
    (now : Int) (inp : Input) (st : Store) : RunResult :=
  let s0 : SeedState := ⟨st, [], [], []⟩
  let p := seedProductsS pd err inp.products s0
  let c := seedCartsS pd err inp.carts p.1
  let ci := seedCartItemsS pd err inp.cartItems c.1
  let f := seedFavoritesS pd err now inp.favorites ci.1
  let o := seedOrdersS pd err inp.orders f.1
  let rv := seedReviewsS pd err inp.reviews o.1
  ⟨rv.1, ⟨p.2, c.2, ci.2, f.2, o.2, rv.2⟩⟩

/-- The fixed entity-type processing order of `main`. -/
def seedOrder : List String :=
  ["product", "cart", "cartItem", "favorite", "order", "review"]

/-- The foreign-key edges declared by the data model (child, parent), as
recorded in the dependency comments of `main`: cart items reference
products and carts; favorites and reviews reference products. -/
def fkEdges : List (String × String) :=
  [("cartItem", "product"), ("cartItem", "cart"),
   ("favorite", "product"), ("review", "product")]

/-! ## The row source (`parseCSV`) -/

/-- JS `String.prototype.trim`: strip whitespace from both ends. -/
def jsTrim (s : String) : String :=
  ⟨((s.toList.dropWhile isJsWhitespace).reverse.dropWhile isJsWhitespace).reverse⟩

/-- JS `String.prototype.split("\n")` on the character list: the segments
between newline characters (always at least one segment). -/
def splitNl : List Char → List (List Char)
  | [] => [[]]
  | '\n' :: rest => [] :: splitNl rest
  | c :: rest =>
    match splitNl rest with
    | l :: ls => (c :: l) :: ls
    | [] => [[c]]

/-- `parseCSV` from `seed.ts`, over the filesystem capability
`fs : path → Option content` (`none` = file does not exist) and the
row-parsing capability `parseRows` (the external `csv-parse` library).
Returns the parsed rows and the warnings emitted; a missing file and an
empty or header-only file (the trimmed content has at most one line)
both degrade to zero rows with a warning. -/
def parseCSV {α : Type} (fs : String → Option String)
    (parseRows : String → List α) (filePath : String) :
    List α × List String :=
  match fs filePath with
  | none => ([], ["CSV file not found: " ++ filePath])
  | some content =>
    if jsTrim content = "" ∨ (splitNl (jsTrim content).toList).length ≤ 1 then
      ([], ["CSV file is empty: " ++ filePath])
    else
      (parseRows content, [])

/-! ## Write lists

Every store mutation the run performs is an `upsert` whose entity, key and
fields are computed from the row alone (never from the current store), so
each reconciliation loop factors through a list of pending writes. This is
the backbone of the idempotence and failure-isolation proofs. -/

/-- One pending store write: entity type, key, fields. -/
abbrev StoreWrite : Type := String × String × List (String × Value)

/-- Apply pending writes to a store, in order. -/
def applyWrites : List StoreWrite → Store → Store
  | [], st => st
  | w :: ws, st => applyWrites ws (upsert st w.1 w.2.1 w.2.2)

/-- The fields of the last write in `ws` hitting entity `e`, key `k`. -/
def lastWrite : List StoreWrite → String → String → Option (List (String × Value))
  | [], _, _ => none
  | w :: ws, e, k =>
    match lastWrite ws e k with
    | some f => some f
    | none => if e = w.1 ∧ k = w.2.1 then some w.2.2 else none

/-- The writes the product loop issues (failed upserts issue none). -/
def productWrites (pd : String → Option Int) (err : String → String → Bool)
    (rows : List ProductRow) : List StoreWrite :=
  rows.filterMap fun r =>
    if err "product" r.id then none
    else some ("product", r.id, (productFields pd r).1)

/-- The writes the cart loop issues. -/
def cartWrites (pd : String → Option Int) (err : String → String → Bool)
    (rows : List CartRow) : List StoreWrite :=
  rows.filterMap fun r =>
    if err "cart" r.id then none
    else some ("cart", r.id, (cartFields pd r).1)

/-- The writes the cart-item loop issues. -/
def cartItemWrites (pd : String → Option Int) (err : String → String → Bool)
    (rows : List CartItemRow) : List StoreWrite :=
  rows.filterMap fun r =>
    if err "cartItem" r.id then none
    else some ("cartItem", r.id, (cartItemFields pd r).1)

/-- The writes the favorite loop issues (skipped rows issue none). -/
def favoriteWrites (pd : String → Option Int) (err : String → String → Bool)
    (now : Int) (rows : List FavoriteRow) : List StoreWrite :=
  rows.filterMap fun r =>
    if r.id = "" ∨ r.clerkId = "" ∨ r.productId = "" then none
    else if err "favorite" r.id then none
    else some ("favorite", r.id, favoriteFields pd now r)

/-- The writes the order loop issues. -/
def orderWrites (pd : String → Option Int) (err : String → String → Bool)
    (rows : List OrderRow) : List StoreWrite :=
  rows.filterMap fun r =>
    if err "order" r.id then none
    else some ("order", r.id, (orderFields pd r).1)

/-- The writes the review loop issues. -/
def reviewWrites (pd : String → Option Int) (err : String → String → Bool)
    (rows : List ReviewRow) : List StoreWrite :=
  rows.filterMap fun r =>
    if err "review" r.id then none
    else some ("review", r.id, (reviewFields pd r).1)

/-- All writes of one full run, in execution order. -/
def migrationWrites (pd : String → Option Int) (err : String → String → Bool)
    (now : Int) (inp : Input) : List StoreWrite :=
  productWrites pd err inp.products ++ cartWrites pd err inp.carts ++
    cartItemWrites pd err inp.cartItems ++ favoriteWrites pd err now inp.favorites ++
    orderWrites pd err inp.orders ++ reviewWrites pd err inp.reviews

/-- The error reports the product loop emits (one per failed upsert,
naming the row's key). -/
def productErrors (err : String → String → Bool) (rows : List ProductRow) : List String :=
  rows.filterMap fun r =>
    if err "product" r.id then some ("Error seeding product " ++ r.id) else none

/-- The error reports the cart loop emits. -/
def cartErrors (err : String → String → Bool) (rows : List CartRow) : List String :=
  rows.filterMap fun r =>
    if err "cart" r.id then some ("Error seeding cart " ++ r.id) else none

/-- The error reports the cartItem loop emits. -/
def cartItemErrors (err : String → String → Bool) (rows : List CartItemRow) : List String :=
  rows.filterMap fun r =>
    if err "cartItem" r.id then some ("Error seeding cart item " ++ r.id) else none

/-- The error reports the order loop emits. -/
def orderErrors (err : String → String → Bool) (rows : List OrderRow) : List String :=
  rows.filterMap fun r =>
    if err "order" r.id then some ("Error seeding order " ++ r.id) else none

/-- The error reports the review loop emits. -/
def reviewErrors (err : String → String → Bool) (rows : List ReviewRow) : List String :=
  rows.filterMap fun r =>
    if err "review" r.id then some ("Error seeding review " ++ r.id) else none

/-- The error reports the favorite loop emits (skipped rows emit none). -/
def favoriteErrors (err : String → String → Bool) (rows : List FavoriteRow) : List String :=
  rows.filterMap fun r =>
    if r.id = "" ∨ r.clerkId = "" ∨ r.productId = "" then none
    else if err "favorite" r.id then some ("Error seeding favorite " ++ r.id) else none

/-- All error reports of one full run, in execution order. -/
def migrationErrors (err : String → String → Bool) (inp : Input) : List String :=
  productErrors err inp.products ++ cartErrors err inp.carts ++
    cartItemErrors err inp.cartItems ++ favoriteErrors err inp.favorites ++
    orderErrors err inp.orders ++ reviewErrors err inp.reviews

/-! ## Loop and wrapper lemmas: each reconciliation factors through its
write list, accumulates its error reports, and leaves the trace alone. -/

theorem applyWrites_append (ws₁ ws₂ : List StoreWrite) (st : Store) :
    applyWrites (ws₁ ++ ws₂) st = applyWrites ws₂ (applyWrites ws₁ st) := by
  induction ws₁ generalizing st with
  | nil => rfl
  | cons w ws ih => simp [applyWrites, ih]

theorem applyWrites_point : ∀ (ws : List StoreWrite) (st : Store) (e k : String),
    applyWrites ws st e k =
      match lastWrite ws e k with
      | some f => some f
      | none => st e k
  | [], _, _, _ => rfl
  | w :: ws, st, e, k => by
    rw [show applyWrites (w :: ws) st = applyWrites ws (upsert st w.1 w.2.1 w.2.2) from rfl,
      applyWrites_point ws]
    rcases h : lastWrite ws e k with _ | f
    · show upsert st w.1 w.2.1 w.2.2 e k = _
      rw [upsert, lastWrite, h]
      by_cases hek : e = w.1 ∧ k = w.2.1
      · rw [if_pos hek, if_pos hek]
      · rw [if_neg hek, if_neg hek]
    · rw [lastWrite, h]

/-- Replaying the same write list is a no-op on the store. -/
theorem applyWrites_self (ws : List StoreWrite) (st : Store) :
    applyWrites ws (applyWrites ws st) = applyWrites ws st := by
  funext e k
  rw [applyWrites_point, applyWrites_point]
  rcases h : lastWrite ws e k with _ | f <;> rfl

theorem seedProduct_loop_store (pd : String → Option Int) (err : String → String → Bool) :
    ∀ (rows : List ProductRow) (s : SeedState),
    (rows.foldl (seedProductStep pd err) s).store =
      applyWrites (productWrites pd err rows) s.store
  | [], _ => rfl
  | r :: rows, s => by
    rw [List.foldl_cons, seedProduct_loop_store pd err rows]
    by_cases h : err "product" r.id <;>
      simp [seedProductStep, productWrites, h, applyWrites]

theorem seedProduct_loop_errors (pd : String → Option Int) (err : String → String → Bool) :
    ∀ (rows : List ProductRow) (s : SeedState),
    (rows.foldl (seedProductStep pd err) s).errors = s.errors ++ productErrors err rows
  | [], s => by simp [productErrors]
  | r :: rows, s => by
    rw [List.foldl_cons, seedProduct_loop_errors pd err rows]
    by_cases h : err "product" r.id <;>
      simp [seedProductStep, productErrors, h]

theorem seedProduct_loop_trace (pd : String → Option Int) (err : String → String → Bool) :
    ∀ (rows : List ProductRow) (s : SeedState),
    (rows.foldl (seedProductStep pd err) s).trace = s.trace
  | [], _ => rfl
  | r :: rows, s => by
    rw [List.foldl_cons, seedProduct_loop_trace pd err rows]
    by_cases h : err "product" r.id <;> simp [seedProductStep, h]

theorem seedProductsS_store (pd : String → Option Int) (err : String → String → Bool)
    (rows : List ProductRow) (s : SeedState) :
    (seedProductsS pd err rows s).1.store = applyWrites (productWrites pd err rows) s.store := by
  cases rows with
  | nil => rfl
  | cons r rs =>
    rw [show (seedProductsS pd err (r :: rs) s).1 =
      (r :: rs).foldl (seedProductStep pd err) { s with trace := s.trace ++ ["product"] } from rfl]
    rw [seedProduct_loop_store]

theorem seedProductsS_errors (pd : String → Option Int) (err : String → String → Bool)
    (rows : List ProductRow) (s : SeedState) :
    (seedProductsS pd err rows s).1.errors = s.errors ++ productErrors err rows := by
  cases rows with
  | nil => simp [seedProductsS, productErrors]
  | cons r rs =>
    rw [show (seedProductsS pd err (r :: rs) s).1 =
      (r :: rs).foldl (seedProductStep pd err) { s with trace := s.trace ++ ["product"] } from rfl]
    rw [seedProduct_loop_errors]

theorem seedProductsS_trace (pd : String → Option Int) (err : String → String → Bool)
    (rows : List ProductRow) (s : SeedState) :
    (seedProductsS pd err rows s).1.trace = s.trace ++ ["product"] := by
  cases rows with
  | nil => rfl
  | cons r rs =>
    rw [show (seedProductsS pd err (r :: rs) s).1 =
      (r :: rs).foldl (seedProductStep pd err) { s with trace := s.trace ++ ["product"] } from rfl]
    rw [seedProduct_loop_trace]

theorem seedCartStep_loop_store (pd : String → Option Int) (err : String → String → Bool) :
    ∀ (rows : List CartRow) (s : SeedState),
    (rows.foldl (seedCartStep pd err) s).store =
      applyWrites (cartWrites pd err rows) s.store
  | [], _ => rfl
  | r :: rows, s => by
    rw [List.foldl_cons, seedCartStep_loop_store pd err rows]
    by_cases h : err "cart" r.id <;>
      simp [seedCartStep, cartWrites, h, applyWrites]

theorem seedCartStep_loop_errors (pd : String → Option Int) (err : String → String → Bool) :
    ∀ (rows : List CartRow) (s : SeedState),
    (rows.foldl (seedCartStep pd err) s).errors = s.errors ++ cartErrors err rows
  | [], s => by simp [cartErrors]
  | r :: rows, s => by
    rw [List.foldl_cons, seedCartStep_loop_errors pd err rows]
    by_cases h : err "cart" r.id <;>
      simp [seedCartStep, cartErrors, h]

theorem seedCartStep_loop_trace (pd : String → Option Int) (err : String → String → Bool) :
    ∀ (rows : List CartRow) (s : SeedState),
    (rows.foldl (seedCartStep pd err) s).trace = s.trace
  | [], _ => rfl
  | r :: rows, s => by
    rw [List.foldl_cons, seedCartStep_loop_trace pd err rows]
    by_cases h : err "cart" r.id <;> simp [seedCartStep, h]

theorem seedCartsS_store (pd : String → Option Int) (err : String → String → Bool)
    (rows : List CartRow) (s : SeedState) :
    (seedCartsS pd err rows s).1.store = applyWrites (cartWrites pd err rows) s.store := by
  cases rows with
  | nil => rfl
  | cons r rs =>
    rw [show (seedCartsS pd err (r :: rs) s).1 =
      (r :: rs).foldl (seedCartStep pd err) { s with trace := s.trace ++ ["cart"] } from rfl]
    rw [seedCartStep_loop_store]

theorem seedCartsS_errors (pd : String → Option Int) (err : String → String → Bool)
    (rows : List CartRow) (s : SeedState) :
    (seedCartsS pd err rows s).1.errors = s.errors ++ cartErrors err rows := by
  cases rows with
  | nil => simp [seedCartsS, cartErrors]
  | cons r rs =>
    rw [show (seedCartsS pd err (r :: rs) s).1 =
      (r :: rs).foldl (seedCartStep pd err) { s with trace := s.trace ++ ["cart"] } from rfl]
    rw [seedCartStep_loop_errors]

theorem seedCartsS_trace (pd : String → Option Int) (err : String → String → Bool)
    (rows : List CartRow) (s : SeedState) :
    (seedCartsS pd err rows s).1.trace = s.trace ++ ["cart"] := by
  cases rows with
  | nil => rfl
  | cons r rs =>
    rw [show (seedCartsS pd err (r :: rs) s).1 =
      (r :: rs).foldl (seedCartStep pd err) { s with trace := s.trace ++ ["cart"] } from rfl]
    rw [seedCartStep_loop_trace]

theorem seedCartItemStep_loop_store (pd : String → Option Int) (err : String → String → Bool) :
    ∀ (rows : List CartItemRow) (s : SeedState),
    (rows.foldl (seedCartItemStep pd err) s).store =
      applyWrites (cartItemWrites pd err rows) s.store
  | [], _ => rfl
  | r :: rows, s => by
    rw [List.foldl_cons, seedCartItemStep_loop_store pd err rows]
    by_cases h : err "cartItem" r.id <;>
      simp [seedCartItemStep, cartItemWrites, h, applyWrites]

theorem seedCartItemStep_loop_errors (pd : String → Option Int) (err : String → String → Bool) :
    ∀ (rows : List CartItemRow) (s : SeedState),
    (rows.foldl (seedCartItemStep pd err) s).errors = s.errors ++ cartItemErrors err rows
  | [], s => by simp [cartItemErrors]
  | r :: rows, s => by
    rw [List.foldl_cons, seedCartItemStep_loop_errors pd err rows]
    by_cases h : err "cartItem" r.id <;>
      simp [seedCartItemStep, cartItemErrors, h]

theorem seedCartItemStep_loop_trace (pd : String → Option Int) (err : String → String → Bool) :
    ∀ (rows : List CartItemRow) (s : SeedState),
    (rows.foldl (seedCartItemStep pd err) s).trace = s.trace
  | [], _ => rfl
  | r :: rows, s => by
    rw [List.foldl_cons, seedCartItemStep_loop_trace pd err rows]
    by_cases h : err "cartItem" r.id <;> simp [seedCartItemStep, h]

theorem seedCartItemsS_store (pd : String → Option Int) (err : String → String → Bool)
    (rows : List CartItemRow) (s : SeedState) :
    (seedCartItemsS pd err rows s).1.store = applyWrites (cartItemWrites pd err rows) s.store := by
  cases rows with
  | nil => rfl
  | cons r rs =>
    rw [show (seedCartItemsS pd err (r :: rs) s).1 =
      (r :: rs).foldl (seedCartItemStep pd err) { s with trace := s.trace ++ ["cartItem"] } from rfl]
    rw [seedCartItemStep_loop_store]

theorem seedCartItemsS_errors (pd : String → Option Int) (err : String → String → Bool)
    (rows : List CartItemRow) (s : SeedState) :
    (seedCartItemsS pd err rows s).1.errors = s.errors ++ cartItemErrors err rows := by
  cases rows with
  | nil => simp [seedCartItemsS, cartItemErrors]
  | cons r rs =>
    rw [show (seedCartItemsS pd err (r :: rs) s).1 =
      (r :: rs).foldl (seedCartItemStep pd err) { s with trace := s.trace ++ ["cartItem"] } from rfl]
    rw [seedCartItemStep_loop_errors]

theorem seedCartItemsS_trace (pd : String → Option Int) (err : String → String → Bool)
    (rows : List CartItemRow) (s : SeedState) :
    (seedCartItemsS pd err rows s).1.trace = s.trace ++ ["cartItem"] := by
  cases rows with
  | nil => rfl
  | cons r rs =>
    rw [show (seedCartItemsS pd err (r :: rs) s).1 =
      (r :: rs).foldl (seedCartItemStep pd err) { s with trace := s.trace ++ ["cartItem"] } from rfl]
    rw [seedCartItemStep_loop_trace]

theorem seedOrderStep_loop_store (pd : String → Option Int) (err : String → String → Bool) :
    ∀ (rows : List OrderRow) (s : SeedState),
    (rows.foldl (seedOrderStep pd err) s).store =
      applyWrites (orderWrites pd err rows) s.store
  | [], _ => rfl
  | r :: rows, s => by
    rw [List.foldl_cons, seedOrderStep_loop_store pd err rows]
    by_cases h : err "order" r.id <;>
      simp [seedOrderStep, orderWrites, h, applyWrites]

theorem seedOrderStep_loop_errors (pd : String → Option Int) (err : String → String → Bool) :
    ∀ (rows : List OrderRow) (s : SeedState),
    (rows.foldl (seedOrderStep pd err) s).errors = s.errors ++ orderErrors err rows
  | [], s => by simp [orderErrors]
  | r :: rows, s => by
    rw [List.foldl_cons, seedOrderStep_loop_errors pd err rows]
    by_cases h : err "order" r.id <;>
      simp [seedOrderStep, orderErrors, h]

theorem seedOrderStep_loop_trace (pd : String → Option Int) (err : String → String → Bool) :
    ∀ (rows : List OrderRow) (s : SeedState),
    (rows.foldl (seedOrderStep pd err) s).trace = s.trace
  | [], _ => rfl
  | r :: rows, s => by
    rw [List.foldl_cons, seedOrderStep_loop_trace pd err rows]
    by_cases h : err "order" r.id <;> simp [seedOrderStep, h]

theorem seedOrdersS_store (pd : String → Option Int) (err : String → String → Bool)
    (rows : List OrderRow) (s : SeedState) :
    (seedOrdersS pd err rows s).1.store = applyWrites (orderWrites pd err rows) s.store := by
  cases rows with
  | nil => rfl
  | cons r rs =>
    rw [show (seedOrdersS pd err (r :: rs) s).1 =
      (r :: rs).foldl (seedOrderStep pd err) { s with trace := s.trace ++ ["order"] } from rfl]
    rw [seedOrderStep_loop_store]

theorem seedOrdersS_errors (pd : String → Option Int) (err : String → String → Bool)
    (rows : List OrderRow) (s : SeedState) :
    (seedOrdersS pd err rows s).1.errors = s.errors ++ orderErrors err rows := by
  cases rows with
  | nil => simp [seedOrdersS, orderErrors]
  | cons r rs =>
    rw [show (seedOrdersS pd err (r :: rs) s).1 =
      (r :: rs).foldl (seedOrderStep pd err) { s with trace := s.trace ++ ["order"] } from rfl]
    rw [seedOrderStep_loop_errors]

theorem seedOrdersS_trace (pd : String → Option Int) (err : String → String → Bool)
    (rows : List OrderRow) (s : SeedState) :
    (seedOrdersS pd err rows s).1.trace = s.trace ++ ["order"] := by
  cases rows with
  | nil => rfl
  | cons r rs =>
    rw [show (seedOrdersS pd err (r :: rs) s).1 =
      (r :: rs).foldl (seedOrderStep pd err) { s with trace := s.trace ++ ["order"] } from rfl]
    rw [seedOrderStep_loop_trace]

theorem seedReviewStep_loop_store (pd : String → Option Int) (err : String → String → Bool) :
    ∀ (rows : List ReviewRow) (s : SeedState),
    (rows.foldl (seedReviewStep pd err) s).store =
      applyWrites (reviewWrites pd err rows) s.store
  | [], _ => rfl
  | r :: rows, s => by
    rw [List.foldl_cons, seedReviewStep_loop_store pd err rows]
    by_cases h : err "review" r.id <;>
      simp [seedReviewStep, reviewWrites, h, applyWrites]

theorem seedReviewStep_loop_errors (pd : String → Option Int) (err : String → String → Bool) :
    ∀ (rows : List ReviewRow) (s : SeedState),
    (rows.foldl (seedReviewStep pd err) s).errors = s.errors ++ reviewErrors err rows
  | [], s => by simp [reviewErrors]
  | r :: rows, s => by
    rw [List.foldl_cons, seedReviewStep_loop_errors pd err rows]
    by_cases h : err "review" r.id <;>
      simp [seedReviewStep, reviewErrors, h]

theorem seedReviewStep_loop_trace (pd : String → Option Int) (err : String → String → Bool) :
    ∀ (rows : List ReviewRow) (s : SeedState),
    (rows.foldl (seedReviewStep pd err) s).trace = s.trace
  | [], _ => rfl
  | r :: rows, s => by
    rw [List.foldl_cons, seedReviewStep_loop_trace pd err rows]
    by_cases h : err "review" r.id <;> simp [seedReviewStep, h]

theorem seedReviewsS_store (pd : String → Option Int) (err : String → String → Bool)
    (rows : List ReviewRow) (s : SeedState) :
    (seedReviewsS pd err rows s).1.store = applyWrites (reviewWrites pd err rows) s.store := by
  cases rows with
  | nil => rfl
  | cons r rs =>
    rw [show (seedReviewsS pd err (r :: rs) s).1 =
      (r :: rs).foldl (seedReviewStep pd err) { s with trace := s.trace ++ ["review"] } from rfl]
    rw [seedReviewStep_loop_store]

theorem seedReviewsS_errors (pd : String → Option Int) (err : String → String → Bool)
    (rows : List ReviewRow) (s : SeedState) :
    (seedReviewsS pd err rows s).1.errors = s.errors ++ reviewErrors err rows := by
  cases rows with
  | nil => simp [seedReviewsS, reviewErrors]
  | cons r rs =>
    rw [show (seedReviewsS pd err (r :: rs) s).1 =
      (r :: rs).foldl (seedReviewStep pd err) { s with trace := s.trace ++ ["review"] } from rfl]
    rw [seedReviewStep_loop_errors]

theorem seedReviewsS_trace (pd : String → Option Int) (err : String → String → Bool)
    (rows : List ReviewRow) (s : SeedState) :
    (seedReviewsS pd err rows s).1.trace = s.trace ++ ["review"] := by
  cases rows with
  | nil => rfl
  | cons r rs =>
    rw [show (seedReviewsS pd err (r :: rs) s).1 =
      (r :: rs).foldl (seedReviewStep pd err) { s with trace := s.trace ++ ["review"] } from rfl]
    rw [seedReviewStep_loop_trace]

theorem seedFavoriteStep_loop_store (pd : String → Option Int) (err : String → String → Bool)
    (now : Int) : ∀ (rows : List FavoriteRow) (s : SeedState),
    (rows.foldl (seedFavoriteStep pd err now) s).store =
      applyWrites (favoriteWrites pd err now rows) s.store
  | [], _ => rfl
  | r :: rows, s => by
    rw [List.foldl_cons, seedFavoriteStep_loop_store pd err now rows]
    by_cases hskip : r.id = "" ∨ r.clerkId = "" ∨ r.productId = ""
    · simp [seedFavoriteStep, favoriteWrites, hskip]
    · by_cases h : err "favorite" r.id <;>
        simp [seedFavoriteStep, favoriteWrites, hskip, h, applyWrites]

theorem seedFavoriteStep_loop_errors (pd : String → Option Int) (err : String → String → Bool)
    (now : Int) : ∀ (rows : List FavoriteRow) (s : SeedState),
    (rows.foldl (seedFavoriteStep pd err now) s).errors = s.errors ++ favoriteErrors err rows
  | [], s => by simp [favoriteErrors]
  | r :: rows, s => by
    rw [List.foldl_cons, seedFavoriteStep_loop_errors pd err now rows]
    by_cases hskip : r.id = "" ∨ r.clerkId = "" ∨ r.productId = ""
    · simp [seedFavoriteStep, favoriteErrors, hskip]
    · by_cases h : err "favorite" r.id <;>
        simp [seedFavoriteStep, favoriteErrors, hskip, h]

theorem seedFavoriteStep_loop_trace (pd : String → Option Int) (err : String → String → Bool)
    (now : Int) : ∀ (rows : List FavoriteRow) (s : SeedState),
    (rows.foldl (seedFavoriteStep pd err now) s).trace = s.trace
  | [], _ => rfl
  | r :: rows, s => by
    rw [List.foldl_cons, seedFavoriteStep_loop_trace pd err now rows]
    by_cases hskip : r.id = "" ∨ r.clerkId = "" ∨ r.productId = ""
    · simp [seedFavoriteStep, hskip]
    · by_cases h : err "favorite" r.id <;> simp [seedFavoriteStep, hskip, h]

theorem seedFavoritesS_store (pd : String → Option Int) (err : String → String → Bool)
    (now : Int) (rows : List FavoriteRow) (s : SeedState) :
    (seedFavoritesS pd err now rows s).1.store =
      applyWrites (favoriteWrites pd err now rows) s.store := by
  cases rows with
  | nil => rfl
  | cons r rs =>
    rw [show (seedFavoritesS pd err now (r :: rs) s).1 =
      (r :: rs).foldl (seedFavoriteStep pd err now) { s with trace := s.trace ++ ["favorite"] } from rfl]
    rw [seedFavoriteStep_loop_store]

theorem seedFavoritesS_errors (pd : String → Option Int) (err : String → String → Bool)
    (now : Int) (rows : List FavoriteRow) (s : SeedState) :
    (seedFavoritesS pd err now rows s).1.errors = s.errors ++ favoriteErrors err rows := by
  cases rows with
  | nil => simp [seedFavoritesS, favoriteErrors]
  | cons r rs =>
    rw [show (seedFavoritesS pd err now (r :: rs) s).1 =
      (r :: rs).foldl (seedFavoriteStep pd err now) { s with trace := s.trace ++ ["favorite"] } from rfl]
    rw [seedFavoriteStep_loop_errors]

theorem seedFavoritesS_trace (pd : String → Option Int) (err : String → String → Bool)
    (now : Int) (rows : List FavoriteRow) (s : SeedState) :
    (seedFavoritesS pd err now rows s).1.trace = s.trace ++ ["favorite"] := by
  cases rows with
  | nil => rfl
  | cons r rs =>
    rw [show (seedFavoritesS pd err now (r :: rs) s).1 =
      (r :: rs).foldl (seedFavoriteStep pd err now) { s with trace := s.trace ++ ["favorite"] } from rfl]
    rw [seedFavoriteStep_loop_trace]

/-! ## Run-level lemmas -/

/-- The stored state of a run is the write list applied to the initial
store: writes are computed from the rows alone, never from the store. -/
theorem runMigration_store (pd : String → Option Int) (err : String → String → Bool)
    (now : Int) (inp : Input) (st : Store) :
    (runMigration pd err now inp st).state.store =
      applyWrites (migrationWrites pd err now inp) st := by
  simp [runMigration, migrationWrites, applyWrites_append,
    seedProductsS_store, seedCartsS_store, seedCartItemsS_store,
    seedFavoritesS_store, seedOrdersS_store, seedReviewsS_store]

/-- The error log of a run is the concatenation of the per-entity error
reports, in execution order. -/
theorem runMigration_errors (pd : String → Option Int) (err : String → String → Bool)
    (now : Int) (inp : Input) (st : Store) :
    (runMigration pd err now inp st).state.errors = migrationErrors err inp := by
  simp [runMigration, migrationErrors,
    seedProductsS_errors, seedCartsS_errors, seedCartItemsS_errors,
    seedFavoritesS_errors, seedOrdersS_errors, seedReviewsS_errors]

/-- Every run reconciles all six entity types, in the fixed source order. -/
theorem runMigration_trace (pd : String → Option Int) (err : String → String → Bool)
    (now : Int) (inp : Input) (st : Store) :
    (runMigration pd err now inp st).state.trace = seedOrder := by
  simp [runMigration, seedOrder,
    seedProductsS_trace, seedCartsS_trace, seedCartItemsS_trace,
    seedFavoritesS_trace, seedOrdersS_trace, seedReviewsS_trace]

/-- A successful integer parse emits no warning. -/
theorem parseIntValue_no_warn {s : String} (h : jsParseInt s ≠ none) :
    (parseIntValue s).2 = [] := by
  rcases hp : jsParseInt s with _ | n
  · exact absurd hp h
  · simp [parseIntValue, hp]

/-- A successful float parse emits no warning. -/
theorem parseFloatValue_no_warn {s : String} (h : jsParseFloat s ≠ .nan) :
    (parseFloatValue s).2 = [] := by
  cases hp : jsParseFloat s with
  | nan => exact absurd hp h
  | posInf => simp [parseFloatValue, hp]
  | negInf => simp [parseFloatValue, hp]
  | finite m e => simp [parseFloatValue, hp]

/-! ## Claim theorems -/

/-- C5: `parseBoolean` (the spec's `toBoolean`) returns true exactly on
the recognized truthy token set "true", "1", "t", "True" — the match is
case-sensitive, which is one of the two readings the spec offers — and
every other input, including the empty string, yields false. The function
is total by construction (it never raises). -/
theorem toBoolean_token_set :
    (∀ s : String,
      parseBoolean s = true ↔ (s = "true" ∨ s = "1" ∨ s = "t" ∨ s = "True"))
    ∧ parseBoolean "" = false := by
  refine ⟨fun s => ?_, rfl⟩
  simp [parseBoolean, Bool.or_eq_true, beq_iff_eq, or_assoc]

/-- C6: `parseIntValue` (the spec's `toInt`) is total and, whenever the
base-10 parse fails (`jsParseInt` gives `none`: non-numeric or empty
input), emits exactly one warning and returns 0; when the parse succeeds
it returns the parsed integer with no warning. -/
theorem toInt_fallback (s : String) :
    (jsParseInt s = none →
      parseIntValue s =
        (0, ["Failed to parse integer: " ++ s ++ ", defaulting to 0"]))
    ∧ ∀ n : Int, jsParseInt s = some n → parseIntValue s = (n, []) := by
  constructor
  · intro h; simp [parseIntValue, h]
  · intro n h; simp [parseIntValue, h]

/-- Witness for C6 at the concrete inputs "abc" and "" (both fail the
base-10 parse, warn, and default to 0). -/
theorem toInt_fallback_witness :
    parseIntValue "abc" = (0, ["Failed to parse integer: abc, defaulting to 0"])
    ∧ parseIntValue "" = (0, ["Failed to parse integer: , defaulting to 0"]) :=
  ⟨(toInt_fallback "abc").1 (by decide), (toInt_fallback "").1 (by decide)⟩

/-- C7: the row source `parseCSV` degrades instead of failing: a path the
filesystem does not know yields zero rows plus a "not found" warning, and
existing content that is empty or header-only after trimming (at most one
line) yields zero rows plus an "empty" warning. The function is total by
construction (it never raises, for every path). -/
theorem rowSource_degradation {α : Type} (fs : String → Option String)
    (parseRows : String → List α) (path : String) :
    (fs path = none →
      parseCSV fs parseRows path = ([], ["CSV file not found: " ++ path]))
    ∧ ∀ content, fs path = some content →
        (jsTrim content = "" ∨ (splitNl (jsTrim content).toList).length ≤ 1) →
        parseCSV fs parseRows path = ([], ["CSV file is empty: " ++ path]) := by
  constructor
  · intro h; simp [parseCSV, h]
  · intro c hc hcond
    simp only [parseCSV, hc]
    rw [if_pos hcond]

/-- Witness for C7: a filesystem holding one header-only file; a missing
path and the header-only path both give zero rows and one warning. -/
theorem rowSource_degradation_witness :
    parseCSV (fun p => if p = "data.csv" then some "id,name\n" else none)
        (fun _ => ([] : List Nat)) "missing.csv" =
      ([], ["CSV file not found: missing.csv"])
    ∧ parseCSV (fun p => if p = "data.csv" then some "id,name\n" else none)
        (fun _ => ([] : List Nat)) "data.csv" =
      ([], ["CSV file is empty: data.csv"]) :=
  ⟨(rowSource_degradation _ _ "missing.csv").1 (by decide),
   (rowSource_degradation _ _ "data.csv").2 "id,name\n" (by decide) (by decide)⟩

/-- C8: the count an entity reconciliation reports at its end is the
length of the parsed row sequence — rows seen — for every entity type,
every failure predicate and every row list: rows silently skipped
(favorites with a missing required identifier) and rows whose upsert
failed are not subtracted. On an empty row list no count is reported
(the source returns early). -/
theorem reported_count_eq_rows_seen (pd : String → Option Int)
    (err : String → String → Bool) (now : Int)
    (prows : List ProductRow) (crows : List CartRow) (irows : List CartItemRow)
    (frows : List FavoriteRow) (orows : List OrderRow) (rrows : List ReviewRow)
    (s₁ s₂ s₃ s₄ s₅ s₆ : SeedState) :
    (seedProductsS pd err prows s₁).2 =
      (if prows.length = 0 then none else some prows.length)
    ∧ (seedCartsS pd err crows s₂).2 =
      (if crows.length = 0 then none else some crows.length)
    ∧ (seedCartItemsS pd err irows s₃).2 =
      (if irows.length = 0 then none else some irows.length)
    ∧ (seedFavoritesS pd err now frows s₄).2 =
      (if frows.length = 0 then none else some frows.length)
    ∧ (seedOrdersS pd err orows s₅).2 =
      (if orows.length = 0 then none else some orows.length)
    ∧ (seedReviewsS pd err rrows s₆).2 =
      (if rrows.length = 0 then none else some rrows.length) := by
  refine ⟨?_, ?_, ?_, ?_, ?_, ?_⟩
  · cases prows <;> rfl
  · cases crows <;> rfl
  · cases irows <;> rfl
  · cases frows <;> rfl
  · cases orows <;> rfl
  · cases rrows <;> rfl

/-- C10: inputs with a numeric prefix followed by junk parse to the
prefix's value with no warning — "12abc" gives 12, "1.5xyz" gives 1.5
(held as 15·10⁻¹, interpreted as the rational 3/2) — and, universally,
the warn-and-default-to-0 branch of `parseIntValue`/`parseFloatValue`
fires exactly when no leading numeric prefix parses at all (`jsParseInt`
gives `none` / `jsParseFloat` gives `NaN`). -/
theorem numeric_prefix_acceptance :
    parseIntValue "12abc" = (12, [])
    ∧ parseFloatValue "1.5xyz" = (.finite 15 (-1), [])
    ∧ (JsFloat.finite 15 (-1)).ratVal = some (3 / 2)
    ∧ (∀ s : String, (parseIntValue s).2 ≠ [] ↔ jsParseInt s = none)
    ∧ (∀ s : String, (parseFloatValue s).2 ≠ [] ↔ jsParseFloat s = .nan) := by
  refine ⟨by decide, by decide, by norm_num [JsFloat.ratVal, pow10],
    fun s => ?_, fun s => ?_⟩
  · rcases h : jsParseInt s with _ | n <;> simp [parseIntValue, h]
  · rcases h : jsParseFloat s with _ | _ | _ | _ <;> simp [parseFloatValue, h]

/-- C4: a favorite row with a missing (empty) required identifier — id,
clerkId or productId — is a silent no-op: the reconciliation loop over
any row sequence containing it produces exactly the state (store,
warnings, errors, trace) of the loop without that row; no upsert is
issued, nothing is logged, and the following rows are processed as
before. -/
theorem favorite_required_id_skip (pd : String → Option Int)
    (err : String → String → Bool) (now : Int)
    (pre post : List FavoriteRow) (r : FavoriteRow) (s : SeedState)
    (h : r.id = "" ∨ r.clerkId = "" ∨ r.productId = "") :
    (pre ++ r :: post).foldl (seedFavoriteStep pd err now) s =
      (pre ++ post).foldl (seedFavoriteStep pd err now) s := by
  rw [List.foldl_append, List.foldl_append, List.foldl_cons]
  congr 1
  simp [seedFavoriteStep, h]

/-- Witness for C4: a favorite row with an empty id among one other valid
row; the loop state is the same as without it. -/
theorem favorite_required_id_skip_witness :
    ([(⟨"", "u1", "p1", "", ""⟩ : FavoriteRow), ⟨"f2", "u2", "p2", "", ""⟩].foldl
        (seedFavoriteStep (fun _ => none) (fun _ _ => false) 0)
        ⟨emptyStore, [], [], []⟩) =
      ([(⟨"f2", "u2", "p2", "", ""⟩ : FavoriteRow)].foldl
        (seedFavoriteStep (fun _ => none) (fun _ _ => false) 0)
        ⟨emptyStore, [], [], []⟩) :=
  favorite_required_id_skip (fun _ => none) (fun _ _ => false) 0 []
    [⟨"f2", "u2", "p2", "", ""⟩] ⟨"", "u1", "p1", "", ""⟩
    ⟨emptyStore, [], [], []⟩ (Or.inl rfl)

/-- C2: per-row failure isolation, for every entity type. If a row's
upsert fails at the store (err true for its entity type and key — for a
favorite row this presupposes the row was not silently skipped, since a
skipped row issues no upsert), the full run still (a) reaches exactly the
stored state of the run in which that row is absent — so every later row
of the same entity type and every later entity type is processed
unchanged and the failed row leaves no trace in the store — (b) logs an
error report naming the failed row's key, and (c) completes all six
entity-type reconciliations in order. One failed upsert never aborts the
batch or the run. -/
theorem per_row_failure_isolation (pd : String → Option Int)
    (err : String → String → Bool) (now : Int) (inp : Input) (st : Store) :
    (∀ (pre post : List ProductRow) (r : ProductRow),
      inp.products = pre ++ r :: post → err "product" r.id = true →
      (runMigration pd err now inp st).state.store =
        (runMigration pd err now { inp with products := pre ++ post } st).state.store
      ∧ ("Error seeding product " ++ r.id) ∈ (runMigration pd err now inp st).state.errors)
    ∧ (∀ (pre post : List CartRow) (r : CartRow),
      inp.carts = pre ++ r :: post → err "cart" r.id = true →
      (runMigration pd err now inp st).state.store =
        (runMigration pd err now { inp with carts := pre ++ post } st).state.store
      ∧ ("Error seeding cart " ++ r.id) ∈ (runMigration pd err now inp st).state.errors)
    ∧ (∀ (pre post : List CartItemRow) (r : CartItemRow),
      inp.cartItems = pre ++ r :: post → err "cartItem" r.id = true →
      (runMigration pd err now inp st).state.store =
        (runMigration pd err now { inp with cartItems := pre ++ post } st).state.store
      ∧ ("Error seeding cart item " ++ r.id) ∈ (runMigration pd err now inp st).state.errors)
    ∧ (∀ (pre post : List FavoriteRow) (r : FavoriteRow),
      inp.favorites = pre ++ r :: post →
      ¬(r.id = "" ∨ r.clerkId = "" ∨ r.productId = "") → err "favorite" r.id = true →
      (runMigration pd err now inp st).state.store =
        (runMigration pd err now { inp with favorites := pre ++ post } st).state.store
      ∧ ("Error seeding favorite " ++ r.id) ∈ (runMigration pd err now inp st).state.errors)
    ∧ (∀ (pre post : List OrderRow) (r : OrderRow),
      inp.orders = pre ++ r :: post → err "order" r.id = true →
      (runMigration pd err now inp st).state.store =
        (runMigration pd err now { inp with orders := pre ++ post } st).state.store
      ∧ ("Error seeding order " ++ r.id) ∈ (runMigration pd err now inp st).state.errors)
    ∧ (∀ (pre post : List ReviewRow) (r : ReviewRow),
      inp.reviews = pre ++ r :: post → err "review" r.id = true →
      (runMigration pd err now inp st).state.store =
        (runMigration pd err now { inp with reviews := pre ++ post } st).state.store
      ∧ ("Error seeding review " ++ r.id) ∈ (runMigration pd err now inp st).state.errors)
    ∧ (runMigration pd err now inp st).state.trace = seedOrder := by
  refine ⟨fun pre post r hrows hfail => ⟨?_, ?_⟩,
    fun pre post r hrows hfail => ⟨?_, ?_⟩,
    fun pre post r hrows hfail => ⟨?_, ?_⟩,
    fun pre post r hrows hskip hfail => ⟨?_, ?_⟩,
    fun pre post r hrows hfail => ⟨?_, ?_⟩,
    fun pre post r hrows hfail => ⟨?_, ?_⟩,
    runMigration_trace pd err now inp st⟩
  · rw [runMigration_store, runMigration_store]
    simp [migrationWrites, hrows, productWrites, hfail]
  · rw [runMigration_errors]
    simp [migrationErrors, hrows, productErrors, hfail]
  · rw [runMigration_store, runMigration_store]
    simp [migrationWrites, hrows, cartWrites, hfail]
  · rw [runMigration_errors]
    simp [migrationErrors, hrows, cartErrors, hfail]
  · rw [runMigration_store, runMigration_store]
    simp [migrationWrites, hrows, cartItemWrites, hfail]
  · rw [runMigration_errors]
    simp [migrationErrors, hrows, cartItemErrors, hfail]
  · rw [runMigration_store, runMigration_store]
    simp [migrationWrites, hrows, favoriteWrites, hskip, hfail]
  · rw [runMigration_errors]
    simp [migrationErrors, hrows, favoriteErrors, hskip, hfail]
  · rw [runMigration_store, runMigration_store]
    simp [migrationWrites, hrows, orderWrites, hfail]
  · rw [runMigration_errors]
    simp [migrationErrors, hrows, orderErrors, hfail]
  · rw [runMigration_store, runMigration_store]
    simp [migrationWrites, hrows, reviewWrites, hfail]
  · rw [runMigration_errors]
    simp [migrationErrors, hrows, reviewErrors, hfail]

/-- Witness for C2: a store rejecting every upsert, one row per entity
type; each of the six failed rows' error reports is logged and all six
entity types are still reconciled, in order. -/
theorem per_row_failure_isolation_witness :
    ("Error seeding product p1" ∈
      (runMigration (fun _ => none) (fun _ _ => true) 0
        ⟨[⟨"p1", "n", "c", "d", "true", "i", "10", "", "", "u1"⟩],
         [⟨"c1", "u1", "1", "10", "5", "2", "0.07", "17", "", ""⟩],
         [⟨"i1", "p1", "c1", "2", "", ""⟩], [⟨"f1", "u1", "p1", "", ""⟩],
         [⟨"o1", "u1", "3", "30", "2", "5", "a@b", "true", "", ""⟩],
         [⟨"r1", "u1", "5", "good", "a", "url", "", "", "p1"⟩]⟩
        emptyStore).state.errors)
    ∧ ("Error seeding cart c1" ∈
      (runMigration (fun _ => none) (fun _ _ => true) 0
        ⟨[⟨"p1", "n", "c", "d", "true", "i", "10", "", "", "u1"⟩],
         [⟨"c1", "u1", "1", "10", "5", "2", "0.07", "17", "", ""⟩],
         [⟨"i1", "p1", "c1", "2", "", ""⟩], [⟨"f1", "u1", "p1", "", ""⟩],
         [⟨"o1", "u1", "3", "30", "2", "5", "a@b", "true", "", ""⟩],
         [⟨"r1", "u1", "5", "good", "a", "url", "", "", "p1"⟩]⟩
        emptyStore).state.errors)
    ∧ ("Error seeding cart item i1" ∈
      (runMigration (fun _ => none) (fun _ _ => true) 0
        ⟨[⟨"p1", "n", "c", "d", "true", "i", "10", "", "", "u1"⟩],
         [⟨"c1", "u1", "1", "10", "5", "2", "0.07", "17", "", ""⟩],
         [⟨"i1", "p1", "c1", "2", "", ""⟩], [⟨"f1", "u1", "p1", "", ""⟩],
         [⟨"o1", "u1", "3", "30", "2", "5", "a@b", "true", "", ""⟩],
         [⟨"r1", "u1", "5", "good", "a", "url", "", "", "p1"⟩]⟩
        emptyStore).state.errors)
    ∧ ("Error seeding favorite f1" ∈
      (runMigration (fun _ => none) (fun _ _ => true) 0
        ⟨[⟨"p1", "n", "c", "d", "true", "i", "10", "", "", "u1"⟩],
         [⟨"c1", "u1", "1", "10", "5", "2", "0.07", "17", "", ""⟩],
         [⟨"i1", "p1", "c1", "2", "", ""⟩], [⟨"f1", "u1", "p1", "", ""⟩],
         [⟨"o1", "u1", "3", "30", "2", "5", "a@b", "true", "", ""⟩],
         [⟨"r1", "u1", "5", "good", "a", "url", "", "", "p1"⟩]⟩
        emptyStore).state.errors)
    ∧ ("Error seeding order o1" ∈
      (runMigration (fun _ => none) (fun _ _ => true) 0
        ⟨[⟨"p1", "n", "c", "d", "true", "i", "10", "", "", "u1"⟩],
         [⟨"c1", "u1", "1", "10", "5", "2", "0.07", "17", "", ""⟩],
         [⟨"i1", "p1", "c1", "2", "", ""⟩], [⟨"f1", "u1", "p1", "", ""⟩],
         [⟨"o1", "u1", "3", "30", "2", "5", "a@b", "true", "", ""⟩],
         [⟨"r1", "u1", "5", "good", "a", "url", "", "", "p1"⟩]⟩
        emptyStore).state.errors)
    ∧ ("Error seeding review r1" ∈
      (runMigration (fun _ => none) (fun _ _ => true) 0
        ⟨[⟨"p1", "n", "c", "d", "true", "i", "10", "", "", "u1"⟩],
         [⟨"c1", "u1", "1", "10", "5", "2", "0.07", "17", "", ""⟩],
         [⟨"i1", "p1", "c1", "2", "", ""⟩], [⟨"f1", "u1", "p1", "", ""⟩],
         [⟨"o1", "u1", "3", "30", "2", "5", "a@b", "true", "", ""⟩],
         [⟨"r1", "u1", "5", "good", "a", "url", "", "", "p1"⟩]⟩
        emptyStore).state.errors)
    ∧ (runMigration (fun _ => none) (fun _ _ => true) 0
        ⟨[⟨"p1", "n", "c", "d", "true", "i", "10", "", "", "u1"⟩],
         [⟨"c1", "u1", "1", "10", "5", "2", "0.07", "17", "", ""⟩],
         [⟨"i1", "p1", "c1", "2", "", ""⟩], [⟨"f1", "u1", "p1", "", ""⟩],
         [⟨"o1", "u1", "3", "30", "2", "5", "a@b", "true", "", ""⟩],
         [⟨"r1", "u1", "5", "good", "a", "url", "", "", "p1"⟩]⟩
        emptyStore).state.trace = seedOrder := by
  have T := per_row_failure_isolation (fun _ => none) (fun _ _ => true) 0
    ⟨[⟨"p1", "n", "c", "d", "true", "i", "10", "", "", "u1"⟩],
     [⟨"c1", "u1", "1", "10", "5", "2", "0.07", "17", "", ""⟩],
     [⟨"i1", "p1", "c1", "2", "", ""⟩], [⟨"f1", "u1", "p1", "", ""⟩],
     [⟨"o1", "u1", "3", "30", "2", "5", "a@b", "true", "", ""⟩],
     [⟨"r1", "u1", "5", "good", "a", "url", "", "", "p1"⟩]⟩ emptyStore
  exact ⟨(T.1 [] [] ⟨"p1", "n", "c", "d", "true", "i", "10", "", "", "u1"⟩ rfl rfl).2,
    (T.2.1 [] [] ⟨"c1", "u1", "1", "10", "5", "2", "0.07", "17", "", ""⟩ rfl rfl).2,
    (T.2.2.1 [] [] ⟨"i1", "p1", "c1", "2", "", ""⟩ rfl rfl).2,
    (T.2.2.2.1 [] [] ⟨"f1", "u1", "p1", "", ""⟩ rfl (by decide) rfl).2,
    (T.2.2.2.2.1 [] [] ⟨"o1", "u1", "3", "30", "2", "5", "a@b", "true", "", ""⟩ rfl rfl).2,
    (T.2.2.2.2.2.1 [] [] ⟨"r1", "u1", "5", "good", "a", "url", "", "", "p1"⟩ rfl rfl).2,
    T.2.2.2.2.2.2⟩

/-- C3: dependency ordering. Every run reconciles the entity types in the
fixed order products, carts, cart items, favorites, orders, reviews, and
for every declared foreign-key edge (cart items reference products and
carts; favorites and reviews reference products) the referenced entity
type's reconciliation completes strictly before the referencing one's
begins. -/
theorem dependency_ordering (pd : String → Option Int)
    (err : String → String → Bool) (now : Int) (inp : Input) (st : Store) :
    (runMigration pd err now inp st).state.trace = seedOrder
    ∧ ∀ e ∈ fkEdges, seedOrder.indexOf e.2 < seedOrder.indexOf e.1 := by
  exact ⟨runMigration_trace pd err now inp st, by decide⟩

/-- Witness for C3 at a concrete run and the cart-item → product edge. -/
theorem dependency_ordering_witness :
    (runMigration (fun _ => none) (fun _ _ => false) 0
        ⟨[], [], [], [], [], []⟩ emptyStore).state.trace = seedOrder
    ∧ seedOrder.indexOf "product" < seedOrder.indexOf "cartItem" :=
  ⟨(dependency_ordering (fun _ => none) (fun _ _ => false) 0
      ⟨[], [], [], [], [], []⟩ emptyStore).1,
   (dependency_ordering (fun _ => none) (fun _ _ => false) 0
      ⟨[], [], [], [], [], []⟩ emptyStore).2 ("cartItem", "product") (by decide)⟩

/-- C1 counterexample: the migration is not idempotent for every input
file set. A favorite row carrying all three required identifiers but no
createdAt/updatedAt values is upserted with the wall-clock reading of
`new Date()`; two successive full runs observe different clock readings
(here 0 and then 1), so the second pass rewrites the key with different
fields and the stored state after two runs differs from the state after
one — refuting "the second pass only rewrites the same key-to-fields
mappings". -/
theorem migration_idempotence_cex :
    (runMigration (fun _ => none) (fun _ _ => false) 1
        ⟨[], [], [], [⟨"f1", "u1", "p1", "", ""⟩], [], []⟩
        (runMigration (fun _ => none) (fun _ _ => false) 0
          ⟨[], [], [], [⟨"f1", "u1", "p1", "", ""⟩], [], []⟩
          emptyStore).state.store).state.store "favorite" "f1" ≠
      (runMigration (fun _ => none) (fun _ _ => false) 0
        ⟨[], [], [], [⟨"f1", "u1", "p1", "", ""⟩], [], []⟩
        emptyStore).state.store "favorite" "f1" := by
  decide

/-- C1 (amended): the migration is idempotent whenever the two passes
observe the same clock reading — in particular whenever no upserted
favorite row falls back to the `new Date()` default. For every input set,
failure predicate, date parser, clock value and starting store, running
the full migration a second time from the first run's stored state
reproduces that stored state exactly: every pass issues the same upserts
keyed on each row's id, and upsert is create-or-update-by-key. -/
theorem migration_idempotent_same_clock (pd : String → Option Int)
    (err : String → String → Bool) (now : Int) (inp : Input) (st : Store) :
    (runMigration pd err now inp
        (runMigration pd err now inp st).state.store).state.store =
      (runMigration pd err now inp st).state.store := by
  rw [runMigration_store, runMigration_store]
  exact applyWrites_self _ _

/-- C9 counterexample: an unparseable (non-empty) date field does not
degrade to the current time with a warning — unlike the numeric fields.
For a product row whose createdAt/updatedAt the date parser rejects, the
upsert argument record carries the invalid-date marker (`new Date(s)`
gives *Invalid Date*, not the clock reading, whatever it is), and no
warning at all is emitted for the row (its price "10" parses cleanly), so
the invalid value propagates into the upsert instead of being defaulted
and logged. -/
theorem date_fallback_cex :
    ((productFields (fun _ => none)
        ⟨"p1", "n", "c", "d", "true", "i", "10", "garbage", "garbage", "u1"⟩).1.lookup
        "createdAt" = some (.date .invalid))
    ∧ (productFields (fun _ => none)
        ⟨"p1", "n", "c", "d", "true", "i", "10", "garbage", "garbage", "u1"⟩).2 = [] := by
  decide

/-- C9 (amended): the timestamp coercion policy differs from the numeric
one, uniformly across the entity types. Only a missing (empty) optional
timestamp on a favorite row is defaulted — to the current time, with no
warning; a non-empty date string the parser rejects — on a favorite,
product, cart, cart-item, order or review row, createdAt or updatedAt —
is coerced to the invalid-date marker and propagates into the upsert
record; and no entity type's warnings ever come from a date field (when
the numeric fields parse, the row's warning list is empty whatever its
date fields hold). -/
theorem timestamp_coercion_policy (pd : String → Option Int) (now : Int)
    (fr fr' : FavoriteRow) (pr : ProductRow) (cr : CartRow) (ir : CartItemRow)
    (odr : OrderRow) (rr : ReviewRow) :
    (fr.createdAt = "" →
      (favoriteFields pd now fr).lookup "createdAt" = some (.date (.at now)))
    ∧ (fr.updatedAt = "" →
      (favoriteFields pd now fr).lookup "updatedAt" = some (.date (.at now)))
    ∧ (fr'.createdAt ≠ "" → pd fr'.createdAt = none →
      (favoriteFields pd now fr').lookup "createdAt" = some (.date .invalid))
    ∧ (fr'.updatedAt ≠ "" → pd fr'.updatedAt = none →
      (favoriteFields pd now fr').lookup "updatedAt" = some (.date .invalid))
    ∧ (pd pr.createdAt = none →
      (productFields pd pr).1.lookup "createdAt" = some (.date .invalid))
    ∧ (pd pr.updatedAt = none →
      (productFields pd pr).1.lookup "updatedAt" = some (.date .invalid))
    ∧ (pd cr.createdAt = none →
      (cartFields pd cr).1.lookup "createdAt" = some (.date .invalid))
    ∧ (pd cr.updatedAt = none →
      (cartFields pd cr).1.lookup "updatedAt" = some (.date .invalid))
    ∧ (pd ir.createdAt = none →
      (cartItemFields pd ir).1.lookup "createdAt" = some (.date .invalid))
    ∧ (pd ir.updatedAt = none →
      (cartItemFields pd ir).1.lookup "updatedAt" = some (.date .invalid))
    ∧ (pd odr.createdAt = none →
      (orderFields pd odr).1.lookup "createdAt" = some (.date .invalid))
    ∧ (pd odr.updatedAt = none →
      (orderFields pd odr).1.lookup "updatedAt" = some (.date .invalid))
    ∧ (pd rr.createdAt = none →
      (reviewFields pd rr).1.lookup "createdAt" = some (.date .invalid))
    ∧ (pd rr.updatedAt = none →
      (reviewFields pd rr).1.lookup "updatedAt" = some (.date .invalid))
    ∧ (jsParseInt pr.price ≠ none → (productFields pd pr).2 = [])
    ∧ (jsParseInt cr.numItemsInCart ≠ none → jsParseInt cr.cartTotal ≠ none →
      jsParseInt cr.shipping ≠ none → jsParseInt cr.tax ≠ none →
      jsParseFloat cr.taxRate ≠ .nan → jsParseInt cr.orderTotal ≠ none →
      (cartFields pd cr).2 = [])
    ∧ (jsParseInt ir.amount ≠ none → (cartItemFields pd ir).2 = [])
    ∧ (jsParseInt odr.products ≠ none → jsParseInt odr.orderTotal ≠ none →
      jsParseInt odr.tax ≠ none → jsParseInt odr.shipping ≠ none →
      (orderFields pd odr).2 = [])
    ∧ (jsParseInt rr.rating ≠ none → (reviewFields pd rr).2 = []) := by
  refine ⟨fun h => ?_, fun h => ?_, fun h1 h2 => ?_, fun h1 h2 => ?_,
    fun h => ?_, fun h => ?_, fun h => ?_, fun h => ?_, fun h => ?_,
    fun h => ?_, fun h => ?_, fun h => ?_, fun h => ?_, fun h => ?_,
    fun h => ?_, fun h1 h2 h3 h4 h5 h6 => ?_, fun h => ?_,
    fun h1 h2 h3 h4 => ?_, fun h => ?_⟩
  · simp [favoriteFields, h, List.lookup]
  · simp [favoriteFields, h, List.lookup]
  · simp [favoriteFields, h1, jsNewDate, h2, List.lookup]
  · simp [favoriteFields, h1, jsNewDate, h2, List.lookup]
  · simp [productFields, jsNewDate, h, List.lookup]
  · simp [productFields, jsNewDate, h, List.lookup]
  · simp [cartFields, jsNewDate, h, List.lookup]
  · simp [cartFields, jsNewDate, h, List.lookup]
  · simp [cartItemFields, jsNewDate, h, List.lookup]
  · simp [cartItemFields, jsNewDate, h, List.lookup]
  · simp [orderFields, jsNewDate, h, List.lookup]
  · simp [orderFields, jsNewDate, h, List.lookup]
  · simp [reviewFields, jsNewDate, h, List.lookup]
  · simp [reviewFields, jsNewDate, h, List.lookup]
  · simp [productFields, parseIntValue_no_warn h]
  · simp [cartFields, parseIntValue_no_warn h1, parseIntValue_no_warn h2,
      parseIntValue_no_warn h3, parseIntValue_no_warn h4,
      parseFloatValue_no_warn h5, parseIntValue_no_warn h6]
  · simp [cartItemFields, parseIntValue_no_warn h]
  · simp [orderFields, parseIntValue_no_warn h1, parseIntValue_no_warn h2,
      parseIntValue_no_warn h3, parseIntValue_no_warn h4]
  · simp [reviewFields, parseIntValue_no_warn h]

/-- Witness for C9 (amended): rows of every entity type with unparseable
(or, for one favorite, empty) date fields and cleanly parsing numeric
fields; the empty favorite timestamps default to the clock, every
unparseable one coerces to the invalid marker, and no row emits a
warning. -/
theorem timestamp_coercion_policy_witness :
    ((favoriteFields (fun _ => none) 7 ⟨"f1", "u1", "p1", "", ""⟩).lookup
        "createdAt" = some (.date (.at 7)))
    ∧ ((favoriteFields (fun _ => none) 7 ⟨"f1", "u1", "p1", "", ""⟩).lookup
        "updatedAt" = some (.date (.at 7)))
    ∧ ((favoriteFields (fun _ => none) 7
        ⟨"f1", "u1", "p1", "garbage", "garbage"⟩).lookup
        "createdAt" = some (.date .invalid))
    ∧ ((favoriteFields (fun _ => none) 7
        ⟨"f1", "u1", "p1", "garbage", "garbage"⟩).lookup
        "updatedAt" = some (.date .invalid))
    ∧ ((productFields (fun _ => none)
        ⟨"p1", "n", "c", "d", "true", "i", "10", "garbage", "garbage", "u1"⟩).1.lookup
        "createdAt" = some (.date .invalid))
    ∧ ((productFields (fun _ => none)
        ⟨"p1", "n", "c", "d", "true", "i", "10", "garbage", "garbage", "u1"⟩).1.lookup
        "updatedAt" = some (.date .invalid))
    ∧ ((cartFields (fun _ => none)
        ⟨"c1", "u1", "1", "10", "5", "2", "0.07", "17", "garbage", "garbage"⟩).1.lookup
        "createdAt" = some (.date .invalid))
    ∧ ((cartFields (fun _ => none)
        ⟨"c1", "u1", "1", "10", "5", "2", "0.07", "17", "garbage", "garbage"⟩).1.lookup
        "updatedAt" = some (.date .invalid))
    ∧ ((cartItemFields (fun _ => none)
        ⟨"i1", "p1", "c1", "2", "garbage", "garbage"⟩).1.lookup
        "createdAt" = some (.date .invalid))
    ∧ ((cartItemFields (fun _ => none)
        ⟨"i1", "p1", "c1", "2", "garbage", "garbage"⟩).1.lookup
        "updatedAt" = some (.date .invalid))
    ∧ ((orderFields (fun _ => none)
        ⟨"o1", "u1", "3", "30", "2", "5", "a@b", "true", "garbage", "garbage"⟩).1.lookup
        "createdAt" = some (.date .invalid))
    ∧ ((orderFields (fun _ => none)
        ⟨"o1", "u1", "3", "30", "2", "5", "a@b", "true", "garbage", "garbage"⟩).1.lookup
        "updatedAt" = some (.date .invalid))
    ∧ ((reviewFields (fun _ => none)
        ⟨"r1", "u1", "5", "good", "a", "url", "garbage", "garbage", "p1"⟩).1.lookup
        "createdAt" = some (.date .invalid))
    ∧ ((reviewFields (fun _ => none)
        ⟨"r1", "u1", "5", "good", "a", "url", "garbage", "garbage", "p1"⟩).1.lookup
        "updatedAt" = some (.date .invalid))
    ∧ ((productFields (fun _ => none)
        ⟨"p1", "n", "c", "d", "true", "i", "10", "garbage", "garbage", "u1"⟩).2 = [])
    ∧ ((cartFields (fun _ => none)
        ⟨"c1", "u1", "1", "10", "5", "2", "0.07", "17", "garbage", "garbage"⟩).2 = [])
    ∧ ((cartItemFields (fun _ => none)
        ⟨"i1", "p1", "c1", "2", "garbage", "garbage"⟩).2 = [])
    ∧ ((orderFields (fun _ => none)
        ⟨"o1", "u1", "3", "30", "2", "5", "a@b", "true", "garbage", "garbage"⟩).2 = [])
    ∧ ((reviewFields (fun _ => none)
        ⟨"r1", "u1", "5", "good", "a", "url", "garbage", "garbage", "p1"⟩).2 = []) := by
  have T := timestamp_coercion_policy (fun _ => none) 7
    ⟨"f1", "u1", "p1", "", ""⟩ ⟨"f1", "u1", "p1", "garbage", "garbage"⟩
    ⟨"p1", "n", "c", "d", "true", "i", "10", "garbage", "garbage", "u1"⟩
    ⟨"c1", "u1", "1", "10", "5", "2", "0.07", "17", "garbage", "garbage"⟩
    ⟨"i1", "p1", "c1", "2", "garbage", "garbage"⟩
    ⟨"o1", "u1", "3", "30", "2", "5", "a@b", "true", "garbage", "garbage"⟩
    ⟨"r1", "u1", "5", "good", "a", "url", "garbage", "garbage", "p1"⟩
  obtain ⟨h1, h2, h3, h4, h5, h6, h7, h8, h9, h10, h11, h12, h13, h14,
    h15, h16, h17, h18, h19⟩ := T
  exact ⟨h1 rfl, h2 rfl, h3 (by decide) rfl, h4 (by decide) rfl,
    h5 rfl, h6 rfl, h7 rfl, h8 rfl, h9 rfl, h10 rfl, h11 rfl, h12 rfl,
    h13 rfl, h14 rfl, h15 (by decide),
    h16 (by decide) (by decide) (by decide) (by decide) (by decide) (by decide),
    h17 (by decide), h18 (by decide) (by decide) (by decide) (by decide),
    h19 (by decide)⟩
